import Mathlib

/-!
# Verification of the ARM64 interceptor backend (`guminterceptor-arm64.c`)

Shallow embedding of the hook-installation backend of frida-gum for ARM64:
trampoline preparation, Monitor / Replace trampoline synthesis, activation,
deactivation and the invocation accessor.

Conventions of the embedding

* Addresses and machine words are natural numbers; `% 2 ^ 64` is written where
  the source does integer arithmetic on a `GumAddress` / `gsize` / pointer.
* Memory is a total map from byte addresses to byte values.
* The relocator, the allocator and the instruction encoder of the writer live
  in other files of the library; they enter through the record `Platform`.
* `g_assert*` failures are an explicit outcome (`Outcome.aborted`), and the
  unbounded `do ... while` read loop runs on fuel.
-/

namespace GumArm64

/-! ## Constants of the source file -/

/-- Source line 17: `#define GUM_ARM64_B_MAX_DISTANCE 0x00fffffff`. -/
def GUM_ARM64_B_MAX_DISTANCE : Nat := 0x00fffffff

/-- Source line 18: `#define GUM_ARM64_ADRP_MAX_DISTANCE 0x1fffff000`. -/
def GUM_ARM64_ADRP_MAX_DISTANCE : Nat := 0x1fffff000

/-! ## Memory -/

/-- Byte-addressed memory. -/
abbrev Memory := Nat → Nat

/-- Copy of `bytes` to the addresses `base, base + 1, ...` (what `memcpy` into
memory, or the writer storing its code, does). -/
def write_bytes (mem : Memory) (base : Nat) (bytes : List Nat) : Memory :=
  fun a => if base ≤ a ∧ a < base + bytes.length then bytes.getD (a - base) 0 else mem a

/-- Little-endian store of a 64-bit value at `a` (a `gpointer` store). -/
def write_u64 (mem : Memory) (a : Nat) (v : Nat) : Memory :=
  fun x => if a ≤ x ∧ x < a + 8 then (v / 256 ^ (x - a)) % 256 else mem x

/-- Little-endian load of a 64-bit value at `a` (a `gpointer` load). -/
def read_u64 (mem : Memory) (a : Nat) : Nat :=
  (List.range 8).foldr (fun i acc => mem (a + i) % 256 + 256 * acc) 0

/-! ## CPU context snapshot and invocation accessor -/

/-- Where the accessor finds the fields of `GumCpuContext` that it uses:
`G_STRUCT_OFFSET (GumCpuContext, sp)` and `G_STRUCT_OFFSET (GumCpuContext, x)`.
The structure is declared in a header outside this file. -/
structure GumCpuContextLayout where
  sp_offset : Nat
  x_offset : Nat

/-- The part of `GumInvocationContext` the accessor uses: the pointer
`context->cpu_context`, and the memory that holds both the snapshot it points
to and the stack. -/
structure GumInvocationContext where
  cpu_context : Nat
  mem : Memory

/-- Address of `context->cpu_context->x[n]`. -/
def saved_register_address (layout : GumCpuContextLayout) (context : GumInvocationContext)
    (n : Nat) : Nat :=
  context.cpu_context + layout.x_offset + 8 * n

/-- Source lines 389-393. -/
def _gum_interceptor_invocation_get_return_value (layout : GumCpuContextLayout)
    (context : GumInvocationContext) : Nat :=
  read_u64 context.mem (saved_register_address layout context 0)

/-- Source lines 395-401. -/
def _gum_interceptor_invocation_replace_return_value (layout : GumCpuContextLayout)
    (context : GumInvocationContext) (value : Nat) : GumInvocationContext :=
  { context with
    mem := write_u64 context.mem (saved_register_address layout context 0) value }

/-- The registers the backend names (`ARM64_REG_*`). -/
inductive Arm64Reg
  | X0 | X1 | X2 | X16 | W0 | SP | LR
  deriving DecidableEq, Repr

/-- One argument of `gum_arm64_writer_put_call_address_with_arguments`. -/
inductive GumArgument
  | address (value : Nat)
  | register (reg : Arm64Reg)
  deriving DecidableEq, Repr

/-- The calls `gum_arm64_writer_put_*` / `gum_arm64_writer_flush` /
`gum_arm64_relocator_write_all` that the backend makes on its writer, in the
order made. `relocated input_start count` is what `write_all` emits after
`count` calls of `read_one` on input starting at `input_start`. -/
inductive Arm64Op
  | push_cpu_context
  | pop_cpu_context
  | add_reg_reg_imm (dst left : Arm64Reg) (imm : Nat)
  | call_address_with_arguments (func : Nat) (args : List GumArgument)
  | push_reg_reg (a b : Arm64Reg)
  | pop_reg_reg (a b : Arm64Reg)
  | mov_reg_reg (dst src : Arm64Reg)
  | ldr_reg_reg_offset (dst src : Arm64Reg) (offset : Nat)
  | str_reg_reg_offset (src dst : Arm64Reg) (offset : Nat)
  | cbz_reg_label (reg : Arm64Reg) (label_id : String)
  | label (label_id : String)
  | ldr_reg_address (reg : Arm64Reg) (address : Nat)
  | br_reg (reg : Arm64Reg)
  | b_imm (target : Nat)
  | adrp_reg_address (reg : Arm64Reg) (address : Nat)
  | relocated (input_start : Nat) (count : Nat)
  | flush
  deriving DecidableEq, Repr

/-- State of a `GumArm64Writer`: where it was reset to, and what was put since. -/
structure GumArm64Writer where
  base : Nat
  ops : List Arm64Op

/-- State of a `GumArm64Relocator`: where it was reset to, and how many
`read_one` calls were made since. -/
structure GumArm64Relocator where
  input_start : Nat
  reads : Nat

/-! ## Collaborators -/

/-- A `GumCodeSlice`: `data` and `size`. -/
structure GumCodeSlice where
  data : Nat
  size : Nat
  deriving DecidableEq, Repr

/-- A `GumAddressSpec`: `near_address` and `max_distance`. -/
structure GumAddressSpec where
  near_address : Nat
  max_distance : Nat
  deriving DecidableEq, Repr

/-- The entry points of the code allocator that the backend calls. -/
inductive AllocatorCall
  | alloc_slice
  | try_alloc_slice_near (spec : GumAddressSpec) (alignment : Nat)
  deriving DecidableEq, Repr

/-- What the backend takes from the rest of the library.

* `can_relocate address min_bytes` is `gum_arm64_relocator_can_relocate` with
  `GUM_SCENARIO_ONLINE`: the returned boolean and the `redirect_limit` it stores.
* `read_one input_start k` is the value returned by call number `k` (from 0) of
  `gum_arm64_relocator_read_one` after a reset to `input_start`.
* `alloc_slice` and `try_alloc_slice_near` are the answers of the allocator
  (`none` is `NULL`).
* `advance done op` is the number of bytes by which the writer's code cursor
  moves when `op` is put after `done`; `code_byte base ops i` is the byte the
  writer has stored at `base + i` once `ops` are put.
* the addresses of the four notifiers, of the function context itself, and
  `G_STRUCT_OFFSET (GumCpuContext, lr)`. -/
structure Platform where
  can_relocate : Nat → Nat → Bool × Nat
  read_one : Nat → Nat → Nat
  alloc_slice : GumCodeSlice
  try_alloc_slice_near : GumAddressSpec → Nat → Option GumCodeSlice
  advance : List Arm64Op → Arm64Op → Nat
  code_byte : Nat → List Arm64Op → Nat → Nat
  on_enter_fn : Nat
  on_leave_fn : Nat
  try_begin_invocation_fn : Nat
  end_invocation_fn : Nat
  ctx_address : Nat
  lr_offset : Nat

/-! ## Function context and backend state -/

/-- The fields of `GumFunctionContext` the backend uses, with the
`redirect_code_size` of its `backend_data`. The backup buffer
`overwritten_prologue` is indexed by byte position; its capacity is declared
in a header outside this file and is not modelled. -/
structure GumFunctionContext where
  function_address : Nat
  trampoline_slice : Option GumCodeSlice
  on_enter_trampoline : Nat
  overwritten_prologue : Nat → Nat
  overwritten_prologue_len : Nat
  on_leave_trampoline : Nat
  redirect_code_size : Nat

/-- Everything the backend reads or writes: process memory, the function
context, the backend's own writer and relocator, and the record of the calls
made on the allocator and on `gum_clear_cache`. -/
structure State where
  mem : Memory
  ctx : GumFunctionContext
  writer : GumArm64Writer
  relocator : GumArm64Relocator
  allocator_calls : List AllocatorCall
  cache_flushes : List (Nat × Nat)

/-- How a call of the backend ends: it returns a `gboolean`, or an assertion
(or a `NULL` dereference) ends the process. -/
inductive Outcome
  | returned (result : Bool) (s : State)
  | aborted (s : State)

/-! ## Writer -/

/-- Bytes put by `ops` when `done` was put before them. -/
def code_size_from (advance : List Arm64Op → Arm64Op → Nat) :
    List Arm64Op → List Arm64Op → Nat
  | _, [] => 0
  | done, op :: rest => advance done op + code_size_from advance (done ++ [op]) rest

/-- `gum_arm64_writer_offset`. -/
def gum_arm64_writer_offset (p : Platform) (aw : GumArm64Writer) : Nat :=
  code_size_from p.advance [] aw.ops

/-- `gum_arm64_writer_cur`. -/
def gum_arm64_writer_cur (p : Platform) (aw : GumArm64Writer) : Nat :=
  aw.base + gum_arm64_writer_offset p aw

/-- `gum_arm64_writer_reset`. -/
def gum_arm64_writer_reset (target : Nat) : GumArm64Writer :=
  { base := target, ops := [] }

/-- A sequence of `gum_arm64_writer_put_*` calls. -/
def gum_arm64_writer_put (aw : GumArm64Writer) (ops : List Arm64Op) : GumArm64Writer :=
  { aw with ops := aw.ops ++ ops }

/-- The bytes the writer has stored from its base on. -/
def writer_image (p : Platform) (aw : GumArm64Writer) : List Nat :=
  (List.range (gum_arm64_writer_offset p aw)).map (p.code_byte aw.base aw.ops)

/-- Memory once the writer has stored its code. -/
def writer_commit (p : Platform) (aw : GumArm64Writer) (mem : Memory) : Memory :=
  write_bytes mem aw.base (writer_image p aw)

/-! ## Trampoline preparation -/

/-- Source lines 81-82: `function_address & ~((gsize) (4096 - 1))`. -/
def page_of (function_address : Nat) : Nat :=
  function_address &&& 0xFFFFFFFFFFFFF000

/-- Source lines 56-106. -/
def gum_interceptor_backend_prepare_trampoline (p : Platform) (s : State) : Bool × State :=
  let function_address := s.ctx.function_address
  let answer := p.can_relocate function_address 16
  let redirect_limit := answer.2
  if answer.1 then
    (true,
      { s with
        ctx := { s.ctx with redirect_code_size := 16, trampoline_slice := some p.alloc_slice }
        allocator_calls := s.allocator_calls ++ [AllocatorCall.alloc_slice] })
  else
    let choice : Option (Nat × GumAddressSpec × Nat) :=
      if redirect_limit ≥ 8 then
        some (8, { near_address := page_of function_address,
                   max_distance := GUM_ARM64_ADRP_MAX_DISTANCE }, 4096)
      else if redirect_limit = 4 then
        some (4, { near_address := function_address,
                   max_distance := GUM_ARM64_B_MAX_DISTANCE }, 0)
      else
        none
    match choice with
    | none => (false, s)
    | some (size, spec, alignment) =>
      let slice := p.try_alloc_slice_near spec alignment
      (slice.isSome,
        { s with
          ctx := { s.ctx with redirect_code_size := size, trampoline_slice := slice }
          allocator_calls :=
            s.allocator_calls ++ [AllocatorCall.try_alloc_slice_near spec alignment] })

/-! ## The read loop -/

/-- How the `do ... while` loop over `read_one` ends. -/
inductive ReadResult
  | assert_failed (reads : Nat)
  | done (reloc_bytes : Nat) (reads : Nat)
  deriving DecidableEq, Repr

/-- Source lines 148-153 and 263-268; `k` is the number of `read_one` calls
made so far. `none`: the fuel ran out before the loop ended. -/
def read_loop (p : Platform) (input_start redirect_code_size : Nat) :
    Nat → Nat → Option ReadResult
  | 0, _ => none
  | fuel + 1, k =>
    let reloc_bytes := p.read_one input_start k
    if reloc_bytes = 0 then
      some (ReadResult.assert_failed (k + 1))
    else if reloc_bytes < redirect_code_size then
      read_loop p input_start redirect_code_size fuel (k + 1)
    else
      some (ReadResult.done reloc_bytes (k + 1))

/-- The call `memcpy (ctx->overwritten_prologue, function_address, n)`. -/
def backup_prologue (buffer : Nat → Nat) (mem : Memory) (function_address n : Nat) :
    Nat → Nat :=
  fun i => if i < n then mem (function_address + i) else buffer i

/-! ## Trampoline synthesis -/

/-- Source lines 130-144: the on_enter code of a Monitor hook up to the
relocated prologue. -/
def monitor_enter_ops (p : Platform) : List Arm64Op :=
  [ Arm64Op.push_cpu_context,
    Arm64Op.add_reg_reg_imm Arm64Reg.X1 Arm64Reg.SP 8,
    Arm64Op.add_reg_reg_imm Arm64Reg.X2 Arm64Reg.X1 p.lr_offset,
    Arm64Op.call_address_with_arguments p.on_enter_fn
      [GumArgument.address p.ctx_address, GumArgument.register Arm64Reg.X1,
       GumArgument.register Arm64Reg.X2],
    Arm64Op.pop_cpu_context ]

/-- Source lines 155-161 and 270-276: `write_all`, the load of `resume_at`
into X16, the branch, and the flush. -/
def resume_ops (function_address reloc_bytes reads : Nat) : List Arm64Op :=
  [ Arm64Op.relocated function_address reads,
    Arm64Op.ldr_reg_address Arm64Reg.X16 ((function_address + reloc_bytes) % 2 ^ 64),
    Arm64Op.br_reg Arm64Reg.X16,
    Arm64Op.flush ]

/-- Source lines 173-190: the on_leave code of a Monitor hook. -/
def monitor_leave_ops (p : Platform) : List Arm64Op :=
  [ Arm64Op.push_cpu_context,
    Arm64Op.add_reg_reg_imm Arm64Reg.X1 Arm64Reg.SP 8,
    Arm64Op.add_reg_reg_imm Arm64Reg.X2 Arm64Reg.X1 p.lr_offset,
    Arm64Op.call_address_with_arguments p.on_leave_fn
      [GumArgument.address p.ctx_address, GumArgument.register Arm64Reg.X1,
       GumArgument.register Arm64Reg.X2],
    Arm64Op.pop_cpu_context,
    Arm64Op.br_reg Arm64Reg.LR,
    Arm64Op.flush ]

/-- Source lines 108-195. -/
def _gum_interceptor_backend_make_monitor_trampoline (p : Platform) (fuel : Nat)
    (s : State) : Option Outcome :=
  match gum_interceptor_backend_prepare_trampoline p s with
  | (false, s1) => some (Outcome.returned false s1)
  | (true, s1) =>
    match s1.ctx.trampoline_slice with
    | none => some (Outcome.aborted s1)
    | some slice =>
      let function_address := s1.ctx.function_address
      let aw0 := gum_arm64_writer_reset slice.data
      let ctx2 := { s1.ctx with on_enter_trampoline := gum_arm64_writer_cur p aw0 }
      let aw1 := gum_arm64_writer_put aw0 (monitor_enter_ops p)
      match read_loop p function_address s1.ctx.redirect_code_size fuel 0 with
      | none => none
      | some (ReadResult.assert_failed reads) =>
        some (Outcome.aborted
          { s1 with
            mem := writer_commit p aw1 s1.mem, ctx := ctx2, writer := aw1
            relocator := { input_start := function_address, reads := reads } })
      | some (ReadResult.done reloc_bytes reads) =>
        let ar := { input_start := function_address, reads := reads : GumArm64Relocator }
        let aw2 := gum_arm64_writer_put aw1 (resume_ops function_address reloc_bytes reads)
        let mem2 := writer_commit p aw2 s1.mem
        if gum_arm64_writer_offset p aw2 ≤ slice.size then
          let ctx3 :=
            { ctx2 with
              overwritten_prologue_len := reloc_bytes
              overwritten_prologue :=
                backup_prologue ctx2.overwritten_prologue mem2 function_address reloc_bytes
              on_leave_trampoline := gum_arm64_writer_cur p aw2 }
          let aw3 := gum_arm64_writer_put aw2 (monitor_leave_ops p)
          let mem3 := writer_commit p aw3 mem2
          if gum_arm64_writer_offset p aw3 ≤ slice.size then
            some (Outcome.returned true
              { s1 with mem := mem3, ctx := ctx3, writer := aw3, relocator := ar })
          else
            some (Outcome.aborted
              { s1 with mem := mem3, ctx := ctx3, writer := aw3, relocator := ar })
        else
          some (Outcome.aborted
            { s1 with mem := mem2, ctx := ctx2, writer := aw2, relocator := ar })

/-- Source line 207. -/
def skip_label : String := "gum_interceptor_replacement_skip"

/-- Source lines 221-227: the on_leave code of a Replace hook. -/
def replace_leave_ops (p : Platform) : List Arm64Op :=
  [ Arm64Op.push_reg_reg Arm64Reg.X0 Arm64Reg.X1,
    Arm64Op.call_address_with_arguments p.end_invocation_fn [],
    Arm64Op.mov_reg_reg Arm64Reg.LR Arm64Reg.X0,
    Arm64Op.pop_reg_reg Arm64Reg.X0 Arm64Reg.X1,
    Arm64Op.br_reg Arm64Reg.LR ]

/-- Source lines 234-259: the on_enter code of a Replace hook up to the
relocated prologue. -/
def replace_enter_ops (p : Platform) (on_leave_trampoline replacement_function : Nat) :
    List Arm64Op :=
  [ Arm64Op.push_cpu_context,
    Arm64Op.add_reg_reg_imm Arm64Reg.X2 Arm64Reg.SP 8,
    Arm64Op.ldr_reg_reg_offset Arm64Reg.X1 Arm64Reg.X2 p.lr_offset,
    Arm64Op.call_address_with_arguments p.try_begin_invocation_fn
      [GumArgument.address p.ctx_address, GumArgument.register Arm64Reg.X1,
       GumArgument.register Arm64Reg.X2],
    Arm64Op.cbz_reg_label Arm64Reg.W0 skip_label,
    Arm64Op.ldr_reg_address Arm64Reg.X0 on_leave_trampoline,
    Arm64Op.str_reg_reg_offset Arm64Reg.X0 Arm64Reg.SP (8 + p.lr_offset),
    Arm64Op.pop_cpu_context,
    Arm64Op.ldr_reg_address Arm64Reg.X16 replacement_function,
    Arm64Op.br_reg Arm64Reg.X16,
    Arm64Op.label skip_label,
    Arm64Op.pop_cpu_context ]

/-- Source lines 197-284. -/
def _gum_interceptor_backend_make_replace_trampoline (p : Platform) (fuel : Nat)
    (s : State) (replacement_function : Nat) : Option Outcome :=
  match gum_interceptor_backend_prepare_trampoline p s with
  | (false, s1) => some (Outcome.returned false s1)
  | (true, s1) =>
    match s1.ctx.trampoline_slice with
    | none => some (Outcome.aborted s1)
    | some slice =>
      let function_address := s1.ctx.function_address
      let aw0 := gum_arm64_writer_reset slice.data
      let on_leave := gum_arm64_writer_cur p aw0
      let aw1 := gum_arm64_writer_put aw0 (replace_leave_ops p)
      let on_enter := gum_arm64_writer_cur p aw1
      let ctx2 :=
        { s1.ctx with on_leave_trampoline := on_leave, on_enter_trampoline := on_enter }
      let aw2 := gum_arm64_writer_put aw1 (replace_enter_ops p on_leave replacement_function)
      match read_loop p function_address s1.ctx.redirect_code_size fuel 0 with
      | none => none
      | some (ReadResult.assert_failed reads) =>
        some (Outcome.aborted
          { s1 with
            mem := writer_commit p aw2 s1.mem, ctx := ctx2, writer := aw2
            relocator := { input_start := function_address, reads := reads } })
      | some (ReadResult.done reloc_bytes reads) =>
        let ar := { input_start := function_address, reads := reads : GumArm64Relocator }
        let aw3 := gum_arm64_writer_put aw2 (resume_ops function_address reloc_bytes reads)
        let mem3 := writer_commit p aw3 s1.mem
        if gum_arm64_writer_offset p aw3 ≤ slice.size then
          some (Outcome.returned true
            { s1 with
              mem := mem3
              ctx :=
                { ctx2 with
                  overwritten_prologue_len := reloc_bytes
                  overwritten_prologue :=
                    backup_prologue ctx2.overwritten_prologue mem3 function_address reloc_bytes }
              writer := aw3, relocator := ar })
        else
          some (Outcome.aborted { s1 with mem := mem3, ctx := ctx2, writer := aw3, relocator := ar })

/-! ## Activation and deactivation -/

/-- Source lines 334-339; `none` is the dereference of a `NULL` slice. -/
def gum_function_context_clear_cache (s : State) : Option State :=
  match s.ctx.trampoline_slice with
  | none => none
  | some slice =>
    some { s with
      cache_flushes :=
        s.cache_flushes ++
          [(s.ctx.function_address, s.ctx.overwritten_prologue_len), (slice.data, slice.size)] }

/-- Source lines 304-319: the redirect written for each size class; `none` is
`g_assert_not_reached`. -/
def redirect_ops (redirect_code_size on_enter : Nat) : Option (List Arm64Op) :=
  if redirect_code_size = 4 then
    some [Arm64Op.b_imm on_enter]
  else if redirect_code_size = 8 then
    some [Arm64Op.adrp_reg_address Arm64Reg.X16 on_enter, Arm64Op.br_reg Arm64Reg.X16]
  else if redirect_code_size = 16 then
    some [Arm64Op.ldr_reg_address Arm64Reg.X16 on_enter, Arm64Op.br_reg Arm64Reg.X16]
  else
    none

/-- The writer after the calls of activation, when the size class is known. -/
def activation_writer (s : State) : Option GumArm64Writer :=
  match redirect_ops s.ctx.redirect_code_size s.ctx.on_enter_trampoline with
  | none => none
  | some ops =>
    some (gum_arm64_writer_put (gum_arm64_writer_reset s.ctx.function_address)
      (ops ++ [Arm64Op.flush]))

/-- Source lines 294-323; `none` is an abort. -/
def _gum_interceptor_backend_activate_trampoline (p : Platform) (s : State) : Option State :=
  match activation_writer s with
  | none => none
  | some aw =>
    gum_function_context_clear_cache { s with mem := writer_commit p aw s.mem, writer := aw }

/-- The call `memcpy (function_address, ctx->overwritten_prologue, n)`. -/
def restore_prologue (mem : Memory) (function_address : Nat) (buffer : Nat → Nat) (n : Nat) :
    Memory :=
  fun a =>
    if function_address ≤ a ∧ a < function_address + n then buffer (a - function_address)
    else mem a

/-- Source lines 325-332; `none` is an abort. -/
def _gum_interceptor_backend_deactivate_trampoline (s : State) : Option State :=
  gum_function_context_clear_cache
    { s with
      mem := restore_prologue s.mem s.ctx.function_address s.ctx.overwritten_prologue
        s.ctx.overwritten_prologue_len }

/-! ## Control flow of the emitted Replace on_enter code -/

/-- The ops that follow the definition point of `label_id`. -/
def ops_after_label (label_id : String) : List Arm64Op → List Arm64Op
  | [] => []
  | op :: rest => if op = Arm64Op.label label_id then rest else ops_after_label label_id rest

/-- The ops executed from the head of the list up to and including the first
branch to a register. -/
def run_to_branch : List Arm64Op → List Arm64Op
  | [] => []
  | Arm64Op.br_reg reg :: _ => [Arm64Op.br_reg reg]
  | op :: rest => op :: run_to_branch rest

/-- The ops executed after the first compare-and-branch-on-zero of `ops`, when
the register it tests holds `value`: CBZ branches to its label when the
register is zero and falls through otherwise. -/
def path_after_cbz (value : Nat) : List Arm64Op → List Arm64Op
  | [] => []
  | Arm64Op.cbz_reg_label _ label_id :: rest =>
    if value = 0 then run_to_branch (ops_after_label label_id rest) else run_to_branch rest
  | _ :: rest => path_after_cbz value rest

/-! ## Reach of the redirect instructions -/

/-- Modelled from the spec: the allocator's placement constraint ("a slice
within a signed distance of a target address"), which is not in this file:
`address` is at most `max_distance` away from `near_address`. -/
def address_spec_is_satisfied_by (spec : GumAddressSpec) (address : Nat) : Bool :=
  decide (address - spec.near_address ≤ spec.max_distance ∧
    spec.near_address - address ≤ spec.max_distance)

/-- The byte offset `target - pc` fits the signed 26-bit word immediate of the
ARM64 `B` instruction. -/
def b_imm_encodable (pc target : Nat) : Bool :=
  decide (-(2 : Int) ^ 27 ≤ (target : Int) - pc ∧ (target : Int) - pc ≤ 2 ^ 27 - 4)

/-- The page delta from the page of `pc` to the page of `target` fits the
signed 21-bit page immediate of the ARM64 `ADRP` instruction. -/
def adrp_encodable (pc target : Nat) : Bool :=
  decide (-(2 : Int) ^ 32 ≤ ((target / 4096 * 4096 : Nat) : Int) - (pc / 4096 * 4096 : Nat) ∧
    ((target / 4096 * 4096 : Nat) : Int) - (pc / 4096 * 4096 : Nat) ≤ 2 ^ 32 - 4096)

/-! ## A concrete platform -/

/-- The 64-bit literals (operands of `ldr_reg_address`, the callee and the
address arguments of a call) put since the last flush. -/
def pending_literals : List Arm64Op → Nat
  | [] => 0
  | op :: rest =>
    if Arm64Op.flush ∈ rest then pending_literals rest
    else
      match op with
      | Arm64Op.flush => pending_literals rest
      | Arm64Op.ldr_reg_address _ _ => 1 + pending_literals rest
      | Arm64Op.call_address_with_arguments _ args =>
        1 + (args.filter fun arg =>
              match arg with
              | GumArgument.address _ => true
              | GumArgument.register _ => false).length
          + pending_literals rest
      | _ => pending_literals rest

/-- A fixed-width encoder: a label puts nothing, a flush puts the pending
64-bit literals, a call puts two instructions, the relocated prologue one
instruction per instruction read, every other op one 4-byte instruction. -/
def fixed_width_advance (done : List Arm64Op) (op : Arm64Op) : Nat :=
  match op with
  | Arm64Op.label _ => 0
  | Arm64Op.flush => 8 * pending_literals done
  | Arm64Op.call_address_with_arguments _ _ => 8
  | Arm64Op.relocated _ count => 4 * count
  | _ => 4

/-- A relocator input of 4-byte instructions that all decode: call `k` of
`read_one` returns `4 * (k + 1)`. -/
def reads_all (k : Nat) : Nat := 4 * (k + 1)

/-- A relocator input of 4-byte instructions of which only the first
`fail_from` decode: later calls of `read_one` return 0. -/
def reads_until (fail_from : Nat) (k : Nat) : Nat :=
  if k < fail_from then 4 * (k + 1) else 0

/-- A platform with the fixed-width encoder, the given `can_relocate` answer,
an allocator that answers `near` to every constrained request, and a relocator
whose `read_one` answers by `read` whatever the input address. -/
def sample_platform (can : Bool) (redirect_limit : Nat) (near : Option GumCodeSlice)
    (read : Nat → Nat) : Platform :=
  { can_relocate := fun _ _ => (can, redirect_limit)
    read_one := fun _ k => read k
    alloc_slice := { data := 0x7f0000, size := 4096 }
    try_alloc_slice_near := fun _ _ => near
    advance := fixed_width_advance
    code_byte := fun _ _ i => 0xd4 + i % 2
    on_enter_fn := 0x500000
    on_leave_fn := 0x500100
    try_begin_invocation_fn := 0x500200
    end_invocation_fn := 0x500300
    ctx_address := 0x600000
    lr_offset := 256 }

/-- A function context with only `function_address` set, in a memory whose
byte at `a` is `a % 251`. -/
def sample_state (function_address : Nat) : State :=
  { mem := fun a => a % 251
    ctx :=
      { function_address := function_address
        trampoline_slice := none
        on_enter_trampoline := 0
        overwritten_prologue := fun _ => 0
        overwritten_prologue_len := 0
        on_leave_trampoline := 0
        redirect_code_size := 0 }
    writer := { base := 0, ops := [] }
    relocator := { input_start := 0, reads := 0 }
    allocator_calls := []
    cache_flushes := [] }

/-- The state an outcome carries, `fallback` when there is none. -/
def Outcome.state_or (fallback : State) : Option Outcome → State
  | some (Outcome.returned _ s) => s
  | some (Outcome.aborted s) => s
  | none => fallback

/-- The Monitor hook built for the function at `0x400120` on a platform whose
relocator accepts the 16-byte window. -/
def sample_monitor_hook : State :=
  Outcome.state_or (sample_state 0)
    (_gum_interceptor_backend_make_monitor_trampoline (sample_platform true 16 none reads_all) 16
      (sample_state 0x400120))

/-- The Monitor hook built for the function at `0x400120` on a platform whose
relocator reports a limit of 4 bytes (Near class) and whose allocator answers
the constrained request with the slice at `0x8400120`, which is `0x8000000`
bytes above the function and so within `GUM_ARM64_B_MAX_DISTANCE` of it. -/
def sample_far_near_hook : State :=
  Outcome.state_or (sample_state 0)
    (_gum_interceptor_backend_make_monitor_trampoline
      (sample_platform false 4 (some { data := 0x8400120, size := 4096 }) reads_all) 16
      (sample_state 0x400120))

/-- The Monitor hook built for the function at `0x400120` on a platform whose
relocator reports a limit of 8 bytes (PageRelative class) and whose allocator
answers the constrained request with the page-aligned slice at `0x100400000`,
which is `0x100000000` bytes above the page of the function and so within
`GUM_ARM64_ADRP_MAX_DISTANCE` of it. -/
def sample_far_page_hook : State :=
  Outcome.state_or (sample_state 0)
    (_gum_interceptor_backend_make_monitor_trampoline
      (sample_platform false 8 (some { data := 0x100400000, size := 4096 }) reads_all) 16
      (sample_state 0x400120))

/-- The Replace hook built for the function at `0x400120`, with replacement
function at `0x900000`, on a platform whose relocator reports a limit of 8
bytes and whose allocator answers with the page-aligned slice at `0x410000`. -/
def sample_replace_hook : State :=
  Outcome.state_or (sample_state 0)
    (_gum_interceptor_backend_make_replace_trampoline
      (sample_platform false 8 (some { data := 0x410000, size := 4096 }) reads_all) 16
      (sample_state 0x400120) 0x900000)

theorem write_bytes_outside (mem : Memory) (base : Nat) (bytes : List Nat) (a : Nat)
    (h : a < base ∨ base + bytes.length ≤ a) : write_bytes mem base bytes a = mem a := by
  unfold write_bytes
  rw [if_neg]
  omega

theorem writer_image_length (p : Platform) (aw : GumArm64Writer) :
    (writer_image p aw).length = gum_arm64_writer_offset p aw := by
  simp [writer_image]

theorem writer_commit_outside (p : Platform) (aw : GumArm64Writer) (mem : Memory) (a : Nat)
    (h : a < aw.base ∨ aw.base + gum_arm64_writer_offset p aw ≤ a) :
    writer_commit p aw mem a = mem a := by
  unfold writer_commit
  apply write_bytes_outside
  rw [writer_image_length]
  exact h

/-! ## Lemmas on preparation -/

theorem page_of_eq (a : Nat) (h : a < 2 ^ 64) : page_of a = a - a % 4096 := by
  unfold page_of
  have hm : (0xFFFFFFFFFFFFF000 : Nat) = 2 ^ 12 * (2 ^ 52 - 1) := by norm_num
  have ha : a - a % 4096 = 2 ^ 12 * (a / 4096) := by omega
  rw [hm, ha]
  apply Nat.eq_of_testBit_eq
  intro i
  rw [Nat.testBit_and, Nat.testBit_mul_pow_two, Nat.testBit_mul_pow_two,
    Nat.testBit_two_pow_sub_one]
  by_cases hi : 12 ≤ i
  · have h4096 : (4096 : Nat) = 2 ^ 12 := by norm_num
    rw [h4096, ← Nat.shiftRight_eq_div_pow, Nat.testBit_shiftRight]
    have hidx : 12 + (i - 12) = i := by omega
    rw [hidx]
    by_cases h52 : i - 12 < 52
    · simp [hi, h52]
    · have hlt : a < 2 ^ i := by
        calc a < 2 ^ 64 := h
          _ ≤ 2 ^ i := Nat.pow_le_pow_right (by norm_num) (by omega)
      simp [hi, h52, Nat.testBit_lt_two_pow hlt]
  · simp [hi]


theorem prepare_of_can_relocate (p : Platform) (s : State)
    (hcan : (p.can_relocate s.ctx.function_address 16).1 = true) :
    gum_interceptor_backend_prepare_trampoline p s =
      (true,
        { s with
          ctx := { s.ctx with redirect_code_size := 16, trampoline_slice := some p.alloc_slice }
          allocator_calls := s.allocator_calls ++ [AllocatorCall.alloc_slice] }) := by
  unfold gum_interceptor_backend_prepare_trampoline
  simp only [hcan, if_true]

theorem prepare_of_limit_ge_8 (p : Platform) (s : State)
    (hcan : (p.can_relocate s.ctx.function_address 16).1 = false)
    (h8 : (p.can_relocate s.ctx.function_address 16).2 ≥ 8) :
    gum_interceptor_backend_prepare_trampoline p s =
      ((p.try_alloc_slice_near
          { near_address := page_of s.ctx.function_address,
            max_distance := GUM_ARM64_ADRP_MAX_DISTANCE } 4096).isSome,
        { s with
          ctx :=
            { s.ctx with
              redirect_code_size := 8
              trampoline_slice :=
                p.try_alloc_slice_near
                  { near_address := page_of s.ctx.function_address,
                    max_distance := GUM_ARM64_ADRP_MAX_DISTANCE } 4096 }
          allocator_calls :=
            s.allocator_calls ++
              [AllocatorCall.try_alloc_slice_near
                { near_address := page_of s.ctx.function_address,
                  max_distance := GUM_ARM64_ADRP_MAX_DISTANCE } 4096] }) := by
  unfold gum_interceptor_backend_prepare_trampoline
  simp only [hcan, h8, if_true, Bool.false_eq_true, if_false]

theorem prepare_of_limit_eq_4 (p : Platform) (s : State)
    (hcan : (p.can_relocate s.ctx.function_address 16).1 = false)
    (h4 : (p.can_relocate s.ctx.function_address 16).2 = 4) :
    gum_interceptor_backend_prepare_trampoline p s =
      ((p.try_alloc_slice_near
          { near_address := s.ctx.function_address,
            max_distance := GUM_ARM64_B_MAX_DISTANCE } 0).isSome,
        { s with
          ctx :=
            { s.ctx with
              redirect_code_size := 4
              trampoline_slice :=
                p.try_alloc_slice_near
                  { near_address := s.ctx.function_address,
                    max_distance := GUM_ARM64_B_MAX_DISTANCE } 0 }
          allocator_calls :=
            s.allocator_calls ++
              [AllocatorCall.try_alloc_slice_near
                { near_address := s.ctx.function_address,
                  max_distance := GUM_ARM64_B_MAX_DISTANCE } 0] }) := by
  unfold gum_interceptor_backend_prepare_trampoline
  have h48 : ¬ (4 : Nat) ≥ 8 := by omega
  simp only [hcan, h4, h48, if_true, Bool.false_eq_true, if_false]

theorem prepare_of_unrelocatable (p : Platform) (s : State)
    (hcan : (p.can_relocate s.ctx.function_address 16).1 = false)
    (h8 : ¬ (p.can_relocate s.ctx.function_address 16).2 ≥ 8)
    (h4 : (p.can_relocate s.ctx.function_address 16).2 ≠ 4) :
    gum_interceptor_backend_prepare_trampoline p s = (false, s) := by
  unfold gum_interceptor_backend_prepare_trampoline
  simp only [hcan, h8, h4, Bool.false_eq_true, if_false]


/-- C6: when no redirect class is relocatable (`can_relocate` rejects the
16-byte window and the reported limit is neither at least 8 nor equal to 4),
preparation returns FALSE, the record of allocator calls is as before (neither
`alloc_slice` nor `try_alloc_slice_near` was called), and `trampoline_slice`,
like the whole state, is unchanged. -/
theorem prepare_fails_before_any_allocation (p : Platform) (s : State)
    (hcan : (p.can_relocate s.ctx.function_address 16).1 = false)
    (h8 : ¬ (p.can_relocate s.ctx.function_address 16).2 ≥ 8)
    (h4 : (p.can_relocate s.ctx.function_address 16).2 ≠ 4) :
    (gum_interceptor_backend_prepare_trampoline p s).1 = false ∧
      (gum_interceptor_backend_prepare_trampoline p s).2.allocator_calls = s.allocator_calls ∧
      (gum_interceptor_backend_prepare_trampoline p s).2.ctx.trampoline_slice =
        s.ctx.trampoline_slice ∧
      (gum_interceptor_backend_prepare_trampoline p s).2 = s := by
  rw [prepare_of_unrelocatable p s hcan h8 h4]
  exact ⟨rfl, rfl, rfl, rfl⟩

/-- C6 on a platform whose relocator reports a limit of 5 bytes. -/
theorem prepare_fails_before_any_allocation_witness :
    (gum_interceptor_backend_prepare_trampoline (sample_platform false 5 none reads_all)
        (sample_state 0x400120)).1 = false ∧
      (gum_interceptor_backend_prepare_trampoline (sample_platform false 5 none reads_all)
        (sample_state 0x400120)).2.allocator_calls = (sample_state 0x400120).allocator_calls ∧
      (gum_interceptor_backend_prepare_trampoline (sample_platform false 5 none reads_all)
        (sample_state 0x400120)).2.ctx.trampoline_slice =
          (sample_state 0x400120).ctx.trampoline_slice ∧
      (gum_interceptor_backend_prepare_trampoline (sample_platform false 5 none reads_all)
        (sample_state 0x400120)).2 = sample_state 0x400120 :=
  prepare_fails_before_any_allocation (sample_platform false 5 none reads_all) (sample_state 0x400120)
    rfl (by decide) (by decide)

/-- C5: when `can_relocate` rejects the 16-byte window, a constrained class is
selected (PageRelative for a limit of at least 8, Near for a limit of 4) and
`try_alloc_slice_near` answers `NULL` to the request made for that class, then
`make_monitor_trampoline` and `make_replace_trampoline` both return FALSE in a
state whose memory (so the bytes at `function_address`), `on_enter_trampoline`,
`on_leave_trampoline`, backup buffer and backup length are unchanged and whose
writer has put nothing; and for PageRelative the one allocator call made is
`try_alloc_slice_near` near `function_address` rounded down to its 4096-byte
page, with `GUM_ARM64_ADRP_MAX_DISTANCE` and alignment 4096. -/
theorem constrained_allocation_failure (p : Platform) (fuel : Nat) (s : State)
    (replacement_function : Nat)
    (hfa : s.ctx.function_address < 2 ^ 64)
    (hcan : (p.can_relocate s.ctx.function_address 16).1 = false)
    (hnear :
      ((p.can_relocate s.ctx.function_address 16).2 ≥ 8 ∧
        p.try_alloc_slice_near
          { near_address := page_of s.ctx.function_address,
            max_distance := GUM_ARM64_ADRP_MAX_DISTANCE } 4096 = none) ∨
      ((p.can_relocate s.ctx.function_address 16).2 = 4 ∧
        p.try_alloc_slice_near
          { near_address := s.ctx.function_address,
            max_distance := GUM_ARM64_B_MAX_DISTANCE } 0 = none)) :
    ∃ s1,
      _gum_interceptor_backend_make_monitor_trampoline p fuel s
          = some (Outcome.returned false s1) ∧
      _gum_interceptor_backend_make_replace_trampoline p fuel s replacement_function
          = some (Outcome.returned false s1) ∧
      s1.mem = s.mem ∧
      s1.ctx.on_enter_trampoline = s.ctx.on_enter_trampoline ∧
      s1.ctx.on_leave_trampoline = s.ctx.on_leave_trampoline ∧
      s1.ctx.overwritten_prologue = s.ctx.overwritten_prologue ∧
      s1.ctx.overwritten_prologue_len = s.ctx.overwritten_prologue_len ∧
      s1.writer = s.writer ∧
      ((p.can_relocate s.ctx.function_address 16).2 ≥ 8 →
        s1.allocator_calls =
          s.allocator_calls ++
            [AllocatorCall.try_alloc_slice_near
              { near_address := s.ctx.function_address - s.ctx.function_address % 4096,
                max_distance := 0x1fffff000 } 4096]) := by
  refine ⟨(gum_interceptor_backend_prepare_trampoline p s).2, ?_⟩
  unfold _gum_interceptor_backend_make_monitor_trampoline
    _gum_interceptor_backend_make_replace_trampoline
  rcases hnear with ⟨h8, hnone⟩ | ⟨h4, hnone⟩
  · rw [prepare_of_limit_ge_8 p s hcan h8, hnone]
    refine ⟨rfl, rfl, rfl, rfl, rfl, rfl, rfl, rfl, ?_⟩
    intro _
    simp only [page_of_eq _ hfa, GUM_ARM64_ADRP_MAX_DISTANCE]
  · rw [prepare_of_limit_eq_4 p s hcan h4, hnone]
    refine ⟨rfl, rfl, rfl, rfl, rfl, rfl, rfl, rfl, ?_⟩
    intro h8
    omega


/-- C5 on a platform that selects PageRelative and whose allocator has no
slice near the page `0x400000` of the function at `0x400120`. -/
theorem constrained_allocation_failure_witness :
    ∃ s1,
      _gum_interceptor_backend_make_monitor_trampoline (sample_platform false 8 none reads_all) 16
          (sample_state 0x400120) = some (Outcome.returned false s1) ∧
      _gum_interceptor_backend_make_replace_trampoline (sample_platform false 8 none reads_all) 16
          (sample_state 0x400120) 0x900000 = some (Outcome.returned false s1) ∧
      s1.mem = (sample_state 0x400120).mem ∧
      s1.ctx.on_enter_trampoline = (sample_state 0x400120).ctx.on_enter_trampoline ∧
      s1.ctx.on_leave_trampoline = (sample_state 0x400120).ctx.on_leave_trampoline ∧
      s1.ctx.overwritten_prologue = (sample_state 0x400120).ctx.overwritten_prologue ∧
      s1.ctx.overwritten_prologue_len = (sample_state 0x400120).ctx.overwritten_prologue_len ∧
      s1.writer = (sample_state 0x400120).writer ∧
      (((sample_platform false 8 none reads_all).can_relocate
          (sample_state 0x400120).ctx.function_address 16).2 ≥ 8 →
        s1.allocator_calls =
          (sample_state 0x400120).allocator_calls ++
            [AllocatorCall.try_alloc_slice_near
              { near_address :=
                  (sample_state 0x400120).ctx.function_address -
                    (sample_state 0x400120).ctx.function_address % 4096,
                max_distance := 0x1fffff000 } 4096]) :=
  constrained_allocation_failure (sample_platform false 8 none reads_all) 16 (sample_state 0x400120)
    0x900000 (by decide) rfl (Or.inl ⟨by decide, rfl⟩)

/-- C3, counterexample: it is not the case that the Near class is selected
whenever a slice within the Near reach of `function_address` is obtainable. On
a platform whose relocator accepts the 16-byte window and whose allocator
would answer a Near request with a slice 64 KiB away, preparation sets
`redirect_code_size` to 16. -/
theorem near_not_preferred_when_obtainable :
    ¬ ∀ (p : Platform) (s : State),
        (∃ slice,
          p.try_alloc_slice_near
              { near_address := s.ctx.function_address,
                max_distance := GUM_ARM64_B_MAX_DISTANCE } 0 = some slice ∧
            address_spec_is_satisfied_by
              { near_address := s.ctx.function_address,
                max_distance := GUM_ARM64_B_MAX_DISTANCE } slice.data = true) →
        (gum_interceptor_backend_prepare_trampoline p s).2.ctx.redirect_code_size = 4 := by
  intro h
  have h1 := h (sample_platform true 16 (some { data := 0x410000, size := 4096 }) reads_all)
    (sample_state 0x400120) ⟨{ data := 0x410000, size := 4096 }, rfl, by decide⟩
  revert h1
  decide

/-- C3, as the code has it: the size class is chosen from the relocator's
answer alone, largest window first. For every platform and state,
`redirect_code_size` after preparation is 16 when `can_relocate` accepts the
16-byte window, otherwise 8 when the reported limit is at least 8, otherwise
4 when the limit is 4 (and untouched when none applies). In the first case the
only allocator call made is `alloc_slice`, which carries no placement
constraint, its slice is stored, and preparation returns TRUE; in the other
cases the allocator is either not called or called once through
`try_alloc_slice_near`. -/
theorem prepare_selects_largest_relocatable_window (p : Platform) (s : State) :
    (gum_interceptor_backend_prepare_trampoline p s).2.ctx.redirect_code_size =
        (if (p.can_relocate s.ctx.function_address 16).1 = true then 16
         else if (p.can_relocate s.ctx.function_address 16).2 ≥ 8 then 8
         else if (p.can_relocate s.ctx.function_address 16).2 = 4 then 4
         else s.ctx.redirect_code_size) ∧
      (if (p.can_relocate s.ctx.function_address 16).1 = true then
        (gum_interceptor_backend_prepare_trampoline p s).1 = true ∧
          (gum_interceptor_backend_prepare_trampoline p s).2.allocator_calls =
            s.allocator_calls ++ [AllocatorCall.alloc_slice] ∧
          (gum_interceptor_backend_prepare_trampoline p s).2.ctx.trampoline_slice =
            some p.alloc_slice
       else
        ((gum_interceptor_backend_prepare_trampoline p s).2.allocator_calls = s.allocator_calls ∨
          ∃ spec alignment,
            (gum_interceptor_backend_prepare_trampoline p s).2.allocator_calls =
              s.allocator_calls ++ [AllocatorCall.try_alloc_slice_near spec alignment])) := by
  by_cases hcan : (p.can_relocate s.ctx.function_address 16).1 = true
  · rw [prepare_of_can_relocate p s hcan]
    simp [hcan]
  · have hcan2 : (p.can_relocate s.ctx.function_address 16).1 = false := by
      simpa using hcan
    by_cases h8 : (p.can_relocate s.ctx.function_address 16).2 ≥ 8
    · rw [prepare_of_limit_ge_8 p s hcan2 h8]
      simp [hcan2, h8]
    · by_cases h4 : (p.can_relocate s.ctx.function_address 16).2 = 4
      · rw [prepare_of_limit_eq_4 p s hcan2 h4]
        simp [hcan2, h4]
      · rw [prepare_of_unrelocatable p s hcan2 h8 h4]
        simp [hcan2, h8, h4]


/-! ## What a successful preparation leaves -/

theorem prepare_true_facts (p : Platform) (s s1 : State)
    (h : gum_interceptor_backend_prepare_trampoline p s = (true, s1)) :
    s1.mem = s.mem ∧ s1.ctx.function_address = s.ctx.function_address ∧
      s1.ctx.overwritten_prologue = s.ctx.overwritten_prologue ∧
      s1.ctx.overwritten_prologue_len = s.ctx.overwritten_prologue_len ∧
      (s1.ctx.redirect_code_size = 4 ∨ s1.ctx.redirect_code_size = 8 ∨
        s1.ctx.redirect_code_size = 16) ∧
      s1.ctx.trampoline_slice.isSome = true := by
  by_cases hcan : (p.can_relocate s.ctx.function_address 16).1 = true
  · rw [prepare_of_can_relocate p s hcan] at h
    have h2 := (Prod.mk.inj h).2
    subst h2
    simp
  · have hcan2 : (p.can_relocate s.ctx.function_address 16).1 = false := by
      simpa using hcan
    by_cases h8 : (p.can_relocate s.ctx.function_address 16).2 ≥ 8
    · rw [prepare_of_limit_ge_8 p s hcan2 h8] at h
      have h1 := (Prod.mk.inj h).1
      have h2 := (Prod.mk.inj h).2
      subst h2
      simp [h1]
    · by_cases h4 : (p.can_relocate s.ctx.function_address 16).2 = 4
      · rw [prepare_of_limit_eq_4 p s hcan2 h4] at h
        have h1 := (Prod.mk.inj h).1
        have h2 := (Prod.mk.inj h).2
        subst h2
        simp [h1]
      · rw [prepare_of_unrelocatable p s hcan2 h8 h4] at h
        have h1 := (Prod.mk.inj h).1
        simp at h1

/-! ## Lemmas on the read loop -/

theorem read_loop_done (p : Platform) (fa rcs : Nat) :
    ∀ (fuel k r n : Nat), read_loop p fa rcs fuel k = some (ReadResult.done r n) →
      rcs ≤ r ∧ r ≠ 0 ∧ k < n ∧ r = p.read_one fa (n - 1) ∧
        ∀ j, k ≤ j → j + 1 < n → p.read_one fa j ≠ 0 ∧ p.read_one fa j < rcs := by
  intro fuel
  induction fuel with
  | zero =>
    intro k r n h
    simp [read_loop] at h
  | succ fuel ih =>
    intro k r n h
    unfold read_loop at h
    simp only at h
    by_cases h0 : p.read_one fa k = 0
    · simp [h0] at h
    · by_cases hlt : p.read_one fa k < rcs
      · simp only [h0, hlt, if_true, if_false] at h
        obtain ⟨h1, h2, h3, h4, h5⟩ := ih (k + 1) r n h
        refine ⟨h1, h2, by omega, h4, ?_⟩
        intro j hj hjn
        by_cases hjk : j = k
        · subst hjk
          exact ⟨h0, hlt⟩
        · exact h5 j (by omega) hjn
      · simp only [h0, hlt, if_false, Option.some.injEq, ReadResult.done.injEq] at h
        obtain ⟨hr, hn⟩ := h
        subst hr
        subst hn
        refine ⟨by omega, h0, by omega, by simp, ?_⟩
        intro j hj hjn
        omega

theorem read_loop_terminates (p : Platform) (fa rcs : Nat)
    (hgrow : ∀ j, j + 1 ≤ p.read_one fa j) :
    ∀ (fuel k : Nat), 0 < fuel → rcs ≤ fuel + k →
      ∃ r n, read_loop p fa rcs fuel k = some (ReadResult.done r n) := by
  intro fuel
  induction fuel with
  | zero =>
    intro k h
    omega
  | succ fuel ih =>
    intro k _ hk
    unfold read_loop
    simp only
    have hg := hgrow k
    have h0 : ¬ p.read_one fa k = 0 := by omega
    by_cases hlt : p.read_one fa k < rcs
    · simp only [h0, hlt, if_true, if_false]
      exact ih (k + 1) (by omega) (by omega)
    · simp only [h0, hlt, if_false]
      exact ⟨_, _, rfl⟩

theorem read_loop_assert (p : Platform) (fa rcs k : Nat) (hk : p.read_one fa k = 0) :
    ∀ (fuel i : Nat), i ≤ k → k < fuel + i →
      (∀ j, i ≤ j → j < k → p.read_one fa j ≠ 0 ∧ p.read_one fa j < rcs) →
      read_loop p fa rcs fuel i = some (ReadResult.assert_failed (k + 1)) := by
  intro fuel
  induction fuel with
  | zero =>
    intro i h1 h2
    omega
  | succ fuel ih =>
    intro i hik hfuel hbefore
    unfold read_loop
    simp only
    by_cases hi : i = k
    · subst hi
      simp [hk]
    · obtain ⟨h0, hlt⟩ := hbefore i (le_refl i) (by omega)
      simp only [h0, hlt, if_true, if_false]
      exact ih (i + 1) (by omega) (by omega) (fun j hj hjk => hbefore j (by omega) hjk)

theorem read_one_grows (f : Nat → Nat) (hpos : ∀ k, f k ≠ 0)
    (hmono : ∀ j k, j < k → f j < f k) : ∀ j, j + 1 ≤ f j := by
  intro j
  induction j with
  | zero =>
    have := hpos 0
    omega
  | succ j ih =>
    have := hmono j (j + 1) (by omega)
    omega

theorem writer_base_put (aw : GumArm64Writer) (ops : List Arm64Op) :
    (gum_arm64_writer_put aw ops).base = aw.base := rfl

theorem writer_base_reset (target : Nat) : (gum_arm64_writer_reset target).base = target := rfl

/-! ## What a successful build leaves -/

theorem monitor_built (p : Platform) (fuel : Nat) (s0 s2 : State)
    (h : _gum_interceptor_backend_make_monitor_trampoline p fuel s0
      = some (Outcome.returned true s2)) :
    ∃ slice,
      s2.ctx.trampoline_slice = some slice ∧
      s2.ctx.function_address = s0.ctx.function_address ∧
      (s2.ctx.redirect_code_size = 4 ∨ s2.ctx.redirect_code_size = 8 ∨
        s2.ctx.redirect_code_size = 16) ∧
      read_loop p s0.ctx.function_address s2.ctx.redirect_code_size fuel 0 =
        some (ReadResult.done s2.ctx.overwritten_prologue_len s2.relocator.reads) ∧
      s2.writer.ops =
        monitor_enter_ops p ++
          resume_ops s0.ctx.function_address s2.ctx.overwritten_prologue_len s2.relocator.reads ++
          monitor_leave_ops p ∧
      s2.ctx.on_enter_trampoline = slice.data ∧
      (∀ a, a < slice.data ∨ slice.data + slice.size ≤ a → s2.mem a = s0.mem a) ∧
      (∀ i, i < s2.ctx.overwritten_prologue_len →
        (s0.ctx.function_address + i < slice.data ∨
          slice.data + slice.size ≤ s0.ctx.function_address + i) →
        s2.ctx.overwritten_prologue i = s0.mem (s0.ctx.function_address + i)) := by
  unfold _gum_interceptor_backend_make_monitor_trampoline at h
  rcases hprep : gum_interceptor_backend_prepare_trampoline p s0 with ⟨ok, s1⟩
  rw [hprep] at h
  cases ok with
  | false => simp at h
  | true =>
    obtain ⟨hmem, hfa, _, _, hrcs, _⟩ := prepare_true_facts p s0 s1 hprep
    simp only at h
    cases hsl : s1.ctx.trampoline_slice with
    | none => simp [hsl] at h
    | some slice =>
      simp only [hsl] at h
      cases hloop : read_loop p s1.ctx.function_address s1.ctx.redirect_code_size fuel 0 with
      | none => simp [hloop] at h
      | some res =>
        cases res with
        | assert_failed reads => simp [hloop] at h
        | done r n =>
          simp only [hloop] at h
          split at h
          · rename_i hcap2
            split at h
            · rename_i hcap3
              simp only [Option.some.injEq, Outcome.returned.injEq, true_and] at h
              subst h
              refine ⟨slice, rfl, hfa, hrcs, ?_, ?_, ?_, ?_, ?_⟩
              · simpa [hfa] using hloop
              · simp [gum_arm64_writer_put, gum_arm64_writer_reset, hfa]
              · simp [gum_arm64_writer_cur, gum_arm64_writer_offset, gum_arm64_writer_reset,
                  code_size_from]
              · intro a ha
                show writer_commit p _ (writer_commit p _ s1.mem) a = s0.mem a
                rw [writer_commit_outside, writer_commit_outside, hmem]
                · rw [writer_base_put, writer_base_put, writer_base_reset]
                  omega
                · rw [writer_base_put, writer_base_put, writer_base_put, writer_base_reset]
                  omega
              · intro i hi hout
                show backup_prologue _ (writer_commit p _ s1.mem) s1.ctx.function_address r i = _
                have hi2 : i < r := hi
                unfold backup_prologue
                rw [if_pos hi2, writer_commit_outside, hmem, hfa]
                rw [writer_base_put, writer_base_put, writer_base_reset]
                rw [← hfa] at hout
                omega
            · simp at h
          · simp at h

theorem replace_built (p : Platform) (fuel : Nat) (s0 s2 : State) (replacement_function : Nat)
    (h : _gum_interceptor_backend_make_replace_trampoline p fuel s0 replacement_function
      = some (Outcome.returned true s2)) :
    ∃ slice,
      s2.ctx.trampoline_slice = some slice ∧
      s2.ctx.function_address = s0.ctx.function_address ∧
      (s2.ctx.redirect_code_size = 4 ∨ s2.ctx.redirect_code_size = 8 ∨
        s2.ctx.redirect_code_size = 16) ∧
      read_loop p s0.ctx.function_address s2.ctx.redirect_code_size fuel 0 =
        some (ReadResult.done s2.ctx.overwritten_prologue_len s2.relocator.reads) ∧
      s2.writer.ops =
        replace_leave_ops p ++
          replace_enter_ops p s2.ctx.on_leave_trampoline replacement_function ++
          resume_ops s0.ctx.function_address s2.ctx.overwritten_prologue_len s2.relocator.reads ∧
      s2.ctx.on_leave_trampoline = slice.data ∧
      s2.ctx.on_enter_trampoline = slice.data + code_size_from p.advance [] (replace_leave_ops p) ∧
      (∀ a, a < slice.data ∨ slice.data + slice.size ≤ a → s2.mem a = s0.mem a) ∧
      (∀ i, i < s2.ctx.overwritten_prologue_len →
        (s0.ctx.function_address + i < slice.data ∨
          slice.data + slice.size ≤ s0.ctx.function_address + i) →
        s2.ctx.overwritten_prologue i = s0.mem (s0.ctx.function_address + i)) := by
  unfold _gum_interceptor_backend_make_replace_trampoline at h
  rcases hprep : gum_interceptor_backend_prepare_trampoline p s0 with ⟨ok, s1⟩
  rw [hprep] at h
  cases ok with
  | false => simp at h
  | true =>
    obtain ⟨hmem, hfa, _, _, hrcs, _⟩ := prepare_true_facts p s0 s1 hprep
    simp only at h
    cases hsl : s1.ctx.trampoline_slice with
    | none => simp [hsl] at h
    | some slice =>
      simp only [hsl] at h
      cases hloop : read_loop p s1.ctx.function_address s1.ctx.redirect_code_size fuel 0 with
      | none => simp [hloop] at h
      | some res =>
        cases res with
        | assert_failed reads => simp [hloop] at h
        | done r n =>
          simp only [hloop] at h
          split at h
          · rename_i hcap
            simp only [Option.some.injEq, Outcome.returned.injEq, true_and] at h
            subst h
            refine ⟨slice, rfl, hfa, hrcs, ?_, ?_, ?_, ?_, ?_, ?_⟩
            · simpa [hfa] using hloop
            · simp [gum_arm64_writer_put, gum_arm64_writer_reset, hfa]
            · simp [gum_arm64_writer_cur, gum_arm64_writer_offset, gum_arm64_writer_reset,
                code_size_from]
            · simp [gum_arm64_writer_cur, gum_arm64_writer_offset, gum_arm64_writer_reset,
                gum_arm64_writer_put]
            · intro a ha
              show writer_commit p _ s1.mem a = s0.mem a
              rw [writer_commit_outside, hmem]
              rw [writer_base_put, writer_base_put, writer_base_put, writer_base_reset]
              omega
            · intro i hi hout
              show backup_prologue _ (writer_commit p _ s1.mem) s1.ctx.function_address r i = _
              have hi2 : i < r := hi
              unfold backup_prologue
              rw [if_pos hi2, writer_commit_outside, hmem, hfa]
              rw [writer_base_put, writer_base_put, writer_base_put, writer_base_reset]
              rw [← hfa] at hout
              omega
          · simp at h

/-! ## Activation followed by deactivation (C1) -/

theorem activation_writer_isSome (s : State)
    (hrcs : s.ctx.redirect_code_size = 4 ∨ s.ctx.redirect_code_size = 8 ∨
      s.ctx.redirect_code_size = 16) :
    ∃ aw, activation_writer s = some aw ∧ aw.base = s.ctx.function_address := by
  unfold activation_writer redirect_ops
  rcases hrcs with h | h | h <;> rw [h] <;> exact ⟨_, rfl, rfl⟩

theorem restore_after_patch (p : Platform) (s0 s1 : State) (slice : GumCodeSlice) (a : Nat)
    (hsl : s1.ctx.trampoline_slice = some slice)
    (hrcs : s1.ctx.redirect_code_size = 4 ∨ s1.ctx.redirect_code_size = 8 ∨
      s1.ctx.redirect_code_size = 16)
    (hcover : s1.ctx.redirect_code_size ≤ s1.ctx.overwritten_prologue_len)
    (hfa : s1.ctx.function_address = s0.ctx.function_address)
    (hframe : ∀ a, a < slice.data ∨ slice.data + slice.size ≤ a → s1.mem a = s0.mem a)
    (hbackup : ∀ i, i < s1.ctx.overwritten_prologue_len →
      (s0.ctx.function_address + i < slice.data ∨
        slice.data + slice.size ≤ s0.ctx.function_address + i) →
      s1.ctx.overwritten_prologue i = s0.mem (s0.ctx.function_address + i))
    (hout : a < slice.data ∨ slice.data + slice.size ≤ a)
    (hpatch : ∀ aw, activation_writer s1 = some aw →
      gum_arm64_writer_offset p aw = s1.ctx.redirect_code_size) :
    ∃ s2 s3, _gum_interceptor_backend_activate_trampoline p s1 = some s2 ∧
      _gum_interceptor_backend_deactivate_trampoline s2 = some s3 ∧ s3.mem a = s0.mem a := by
  obtain ⟨aw, haw, hbase⟩ := activation_writer_isSome s1 hrcs
  have hoff := hpatch aw haw
  refine ⟨{ s1 with
      mem := writer_commit p aw s1.mem, writer := aw
      cache_flushes := s1.cache_flushes ++
        [(s1.ctx.function_address, s1.ctx.overwritten_prologue_len), (slice.data, slice.size)] },
    ?_⟩
  refine ⟨{ s1 with
      mem := restore_prologue (writer_commit p aw s1.mem) s1.ctx.function_address
        s1.ctx.overwritten_prologue s1.ctx.overwritten_prologue_len
      writer := aw
      cache_flushes := s1.cache_flushes ++
        [(s1.ctx.function_address, s1.ctx.overwritten_prologue_len), (slice.data, slice.size)] ++
        [(s1.ctx.function_address, s1.ctx.overwritten_prologue_len), (slice.data, slice.size)] },
    ?_, ?_, ?_⟩
  · unfold _gum_interceptor_backend_activate_trampoline
    rw [haw]
    simp only [gum_function_context_clear_cache, hsl]
  · unfold _gum_interceptor_backend_deactivate_trampoline
    simp only [gum_function_context_clear_cache, hsl]
  · show restore_prologue (writer_commit p aw s1.mem) s1.ctx.function_address
      s1.ctx.overwritten_prologue s1.ctx.overwritten_prologue_len a = s0.mem a
    unfold restore_prologue
    by_cases hin : s1.ctx.function_address ≤ a ∧
        a < s1.ctx.function_address + s1.ctx.overwritten_prologue_len
    · rw [if_pos hin]
      have hb := hbackup (a - s1.ctx.function_address) (by omega)
        (by rw [← hfa]; rcases hout with h | h
            · left; omega
            · right; omega)
      rw [hb, ← hfa]
      congr 1
      omega
    · rw [if_neg hin, writer_commit_outside, hframe a hout]
      rw [hbase, hoff]
      omega

/-- C1: for a hook built by `make_monitor_trampoline` or
`make_replace_trampoline` (either returned TRUE), under the condition that
activation's writer puts exactly `redirect_code_size` bytes at
`function_address`, activation followed by deactivation both complete, and
every byte `a` outside the trampoline slice (so every byte of a target
function that is disjoint from the slice) has the value it had before the
build. The backup covers the patch: `redirect_code_size` is at most
`overwritten_prologue_len`. -/
theorem activate_then_deactivate_restores (p : Platform) (fuel : Nat) (s0 s1 : State)
    (replacement_function a : Nat)
    (hbuild :
      _gum_interceptor_backend_make_monitor_trampoline p fuel s0
          = some (Outcome.returned true s1) ∨
        _gum_interceptor_backend_make_replace_trampoline p fuel s0 replacement_function
          = some (Outcome.returned true s1))
    (hout : ∀ slice, s1.ctx.trampoline_slice = some slice →
      a < slice.data ∨ slice.data + slice.size ≤ a)
    (hpatch : ∀ aw, activation_writer s1 = some aw →
      gum_arm64_writer_offset p aw = s1.ctx.redirect_code_size) :
    s1.ctx.redirect_code_size ≤ s1.ctx.overwritten_prologue_len ∧
      ∃ s2 s3, _gum_interceptor_backend_activate_trampoline p s1 = some s2 ∧
        _gum_interceptor_backend_deactivate_trampoline s2 = some s3 ∧ s3.mem a = s0.mem a := by
  rcases hbuild with h | h
  · obtain ⟨slice, hsl, hfa, hrcs, hloop, _, _, hframe, hbackup⟩ := monitor_built p fuel s0 s1 h
    have hcover := (read_loop_done p _ _ _ _ _ _ hloop).1
    exact ⟨hcover, restore_after_patch p s0 s1 slice a hsl hrcs hcover hfa hframe hbackup
      (hout slice hsl) hpatch⟩
  · obtain ⟨slice, hsl, hfa, hrcs, hloop, _, _, _, hframe, hbackup⟩ :=
      replace_built p fuel s0 s1 replacement_function h
    have hcover := (read_loop_done p _ _ _ _ _ _ hloop).1
    exact ⟨hcover, restore_after_patch p s0 s1 slice a hsl hrcs hcover hfa hframe hbackup
      (hout slice hsl) hpatch⟩

/-- C1 on the sample Monitor hook (Absolute class), at the byte `0x400124`
inside the patched prologue. -/
theorem activate_then_deactivate_restores_witness :
    sample_monitor_hook.ctx.redirect_code_size ≤ sample_monitor_hook.ctx.overwritten_prologue_len ∧
      ∃ s2 s3,
        _gum_interceptor_backend_activate_trampoline (sample_platform true 16 none reads_all)
            sample_monitor_hook = some s2 ∧
          _gum_interceptor_backend_deactivate_trampoline s2 = some s3 ∧
          s3.mem 0x400124 = (sample_state 0x400120).mem 0x400124 :=
  activate_then_deactivate_restores (sample_platform true 16 none reads_all) 16 (sample_state 0x400120)
    sample_monitor_hook 0 0x400124 (Or.inl rfl)
    (by
      intro slice h
      have hs : slice = { data := 0x7f0000, size := 4096 } :=
        Option.some.inj (Eq.trans (Eq.symm h) rfl)
      rw [hs]
      decide)
    (by
      intro aw h
      have hs : aw =
          { base := 0x400120,
            ops := [Arm64Op.ldr_reg_address Arm64Reg.X16 0x7f0000,
              Arm64Op.br_reg Arm64Reg.X16, Arm64Op.flush] } :=
        Option.some.inj (Eq.trans (Eq.symm h) rfl)
      rw [hs]
      rfl)

/-! ## The read loop inside the builds (C4) -/

theorem monitor_total (p : Platform) (fuel : Nat) (s0 : State)
    (hgrow : ∀ j, j + 1 ≤ p.read_one s0.ctx.function_address j) (hfuel : 16 ≤ fuel) :
    ∃ o, _gum_interceptor_backend_make_monitor_trampoline p fuel s0 = some o := by
  unfold _gum_interceptor_backend_make_monitor_trampoline
  rcases hprep : gum_interceptor_backend_prepare_trampoline p s0 with ⟨ok, s1⟩
  cases ok with
  | false => exact ⟨_, rfl⟩
  | true =>
    obtain ⟨_, hfa, _, _, hrcs, _⟩ := prepare_true_facts p s0 s1 hprep
    simp only
    cases hsl : s1.ctx.trampoline_slice with
    | none => exact ⟨_, rfl⟩
    | some slice =>
      obtain ⟨r, n, hloop⟩ := read_loop_terminates p s1.ctx.function_address
        s1.ctx.redirect_code_size (by rw [hfa]; exact hgrow) fuel 0 (by omega) (by omega)
      simp only [hloop]
      split
      · split <;> exact ⟨_, rfl⟩
      · exact ⟨_, rfl⟩

theorem replace_total (p : Platform) (fuel : Nat) (s0 : State) (replacement_function : Nat)
    (hgrow : ∀ j, j + 1 ≤ p.read_one s0.ctx.function_address j) (hfuel : 16 ≤ fuel) :
    ∃ o, _gum_interceptor_backend_make_replace_trampoline p fuel s0 replacement_function
      = some o := by
  unfold _gum_interceptor_backend_make_replace_trampoline
  rcases hprep : gum_interceptor_backend_prepare_trampoline p s0 with ⟨ok, s1⟩
  cases ok with
  | false => exact ⟨_, rfl⟩
  | true =>
    obtain ⟨_, hfa, _, _, hrcs, _⟩ := prepare_true_facts p s0 s1 hprep
    simp only
    cases hsl : s1.ctx.trampoline_slice with
    | none => exact ⟨_, rfl⟩
    | some slice =>
      obtain ⟨r, n, hloop⟩ := read_loop_terminates p s1.ctx.function_address
        s1.ctx.redirect_code_size (by rw [hfa]; exact hgrow) fuel 0 (by omega) (by omega)
      simp only [hloop]
      split <;> exact ⟨_, rfl⟩

/-- C4: when `read_one` returns non-zero, strictly increasing cumulative byte
counts, the read loop ends (with fuel 16 or more both builds produce an
outcome), and in every state in which `make_monitor_trampoline` or
`make_replace_trampoline` returned TRUE: `redirect_code_size` is at most
`overwritten_prologue_len`; `overwritten_prologue_len` is the count returned
by the last `read_one` call; and the code put after the relocated prologue
loads `function_address + overwritten_prologue_len` (64-bit `GumAddress`
arithmetic) into X16 and branches to X16. -/
theorem relocation_covers_redirect (p : Platform) (fuel : Nat) (s0 : State)
    (replacement_function : Nat)
    (hpos : ∀ k, p.read_one s0.ctx.function_address k ≠ 0)
    (hmono : ∀ j k, j < k →
      p.read_one s0.ctx.function_address j < p.read_one s0.ctx.function_address k)
    (hfuel : 16 ≤ fuel) :
    (∃ o, _gum_interceptor_backend_make_monitor_trampoline p fuel s0 = some o) ∧
      (∃ o, _gum_interceptor_backend_make_replace_trampoline p fuel s0 replacement_function
        = some o) ∧
      ∀ s2,
        (_gum_interceptor_backend_make_monitor_trampoline p fuel s0
            = some (Outcome.returned true s2) ∨
          _gum_interceptor_backend_make_replace_trampoline p fuel s0 replacement_function
            = some (Outcome.returned true s2)) →
        s2.ctx.redirect_code_size ≤ s2.ctx.overwritten_prologue_len ∧
          1 ≤ s2.relocator.reads ∧
          s2.ctx.overwritten_prologue_len =
            p.read_one s2.ctx.function_address (s2.relocator.reads - 1) ∧
          ∃ before after resume_at,
            s2.writer.ops =
              before ++
                [Arm64Op.relocated s2.ctx.function_address s2.relocator.reads,
                 Arm64Op.ldr_reg_address Arm64Reg.X16 resume_at,
                 Arm64Op.br_reg Arm64Reg.X16, Arm64Op.flush] ++ after ∧
            resume_at = (s2.ctx.function_address + s2.ctx.overwritten_prologue_len) % 2 ^ 64 ∧
            (s2.ctx.function_address + s2.ctx.overwritten_prologue_len < 2 ^ 64 →
              resume_at = s2.ctx.function_address + s2.ctx.overwritten_prologue_len) := by
  have hgrow := read_one_grows (p.read_one s0.ctx.function_address) hpos hmono
  refine ⟨monitor_total p fuel s0 hgrow hfuel,
    replace_total p fuel s0 replacement_function hgrow hfuel, ?_⟩
  intro s2 hbuild
  rcases hbuild with h | h
  · obtain ⟨slice, hsl, hfa, hrcs, hloop, hops, _, _, _⟩ := monitor_built p fuel s0 s2 h
    obtain ⟨h1, _, h3, h4, _⟩ := read_loop_done p _ _ _ _ _ _ hloop
    refine ⟨h1, by omega, by rw [hfa]; exact h4,
      monitor_enter_ops p, monitor_leave_ops p, _, ?_, rfl, fun hlt => Nat.mod_eq_of_lt hlt⟩
    rw [hops, hfa]
    rfl
  · obtain ⟨slice, hsl, hfa, hrcs, hloop, hops, _, _, _, _⟩ :=
      replace_built p fuel s0 s2 replacement_function h
    obtain ⟨h1, _, h3, h4, _⟩ := read_loop_done p _ _ _ _ _ _ hloop
    refine ⟨h1, by omega, by rw [hfa]; exact h4,
      replace_leave_ops p ++ replace_enter_ops p s2.ctx.on_leave_trampoline replacement_function,
      [], _, ?_, rfl, fun hlt => Nat.mod_eq_of_lt hlt⟩
    rw [hops, hfa]
    simp [resume_ops]

/-- C4 on the sample platform, whose relocator returns 4, 8, 12, ..., for the
sample Monitor hook. -/
theorem relocation_covers_redirect_witness :
    sample_monitor_hook.ctx.redirect_code_size ≤ sample_monitor_hook.ctx.overwritten_prologue_len ∧
      1 ≤ sample_monitor_hook.relocator.reads ∧
      sample_monitor_hook.ctx.overwritten_prologue_len =
        (sample_platform true 16 none reads_all).read_one
          sample_monitor_hook.ctx.function_address (sample_monitor_hook.relocator.reads - 1) ∧
      ∃ before after resume_at,
        sample_monitor_hook.writer.ops =
          before ++
            [Arm64Op.relocated sample_monitor_hook.ctx.function_address
               sample_monitor_hook.relocator.reads,
             Arm64Op.ldr_reg_address Arm64Reg.X16 resume_at,
             Arm64Op.br_reg Arm64Reg.X16, Arm64Op.flush] ++ after ∧
          resume_at =
            (sample_monitor_hook.ctx.function_address +
              sample_monitor_hook.ctx.overwritten_prologue_len) % 2 ^ 64 ∧
          (sample_monitor_hook.ctx.function_address +
              sample_monitor_hook.ctx.overwritten_prologue_len < 2 ^ 64 →
            resume_at =
              sample_monitor_hook.ctx.function_address +
                sample_monitor_hook.ctx.overwritten_prologue_len) :=
  (relocation_covers_redirect (sample_platform true 16 none reads_all) 16 (sample_state 0x400120)
    0x900000
    (by intro k; simp [sample_platform, reads_all])
    (by intro j k hjk; simp only [sample_platform, reads_all]; omega)
    (by decide)).2.2 sample_monitor_hook (Or.inl rfl)

/-! ## A zero-length read during the build (C7) -/

/-- C7, counterexample: it is not the case that a build whose first
`read_one` returns 0 reports failure by returning FALSE. On the sample
platform with a relocator that decodes nothing, preparation succeeds and
`make_monitor_trampoline` ends in the failed assertion of source line 151. -/
theorem zero_read_does_not_return_false :
    ¬ ∀ (p : Platform) (fuel : Nat) (s : State),
        (gum_interceptor_backend_prepare_trampoline p s).1 = true →
        p.read_one s.ctx.function_address 0 = 0 →
        ∃ s1, _gum_interceptor_backend_make_monitor_trampoline p fuel s
          = some (Outcome.returned false s1) := by
  intro h
  obtain ⟨s1, h1⟩ := h (sample_platform true 16 none (reads_until 0)) 16 (sample_state 0x400120)
    rfl rfl
  have h2 : _gum_interceptor_backend_make_monitor_trampoline
      (sample_platform true 16 none (reads_until 0)) 16 (sample_state 0x400120) =
      some (Outcome.aborted (Outcome.state_or (sample_state 0)
        (_gum_interceptor_backend_make_monitor_trampoline
          (sample_platform true 16 none (reads_until 0)) 16 (sample_state 0x400120)))) := rfl
  rw [h2] at h1
  cases h1

/-- C7, as the code has it: when preparation succeeds and call `k` of
`read_one` returns 0 while every earlier call returned a non-zero count below
`redirect_code_size`, both builds end in the failed assertion
`g_assert_cmpuint (reloc_bytes, !=, 0)` and do not return. At that point the
remaining build steps have not run (the writer holds the code put before the
relocated prologue and nothing more), the backup buffer and its length are
unchanged, and no byte outside the code put so far by the writer is modified. -/
theorem zero_read_aborts_build (p : Platform) (fuel : Nat) (s : State)
    (replacement_function k : Nat)
    (hprep : (gum_interceptor_backend_prepare_trampoline p s).1 = true)
    (hzero : p.read_one s.ctx.function_address k = 0)
    (hbefore : ∀ j, j < k →
      p.read_one s.ctx.function_address j ≠ 0 ∧
        p.read_one s.ctx.function_address j <
          (gum_interceptor_backend_prepare_trampoline p s).2.ctx.redirect_code_size)
    (hfuel : k < fuel) :
    ∃ sm sr,
      _gum_interceptor_backend_make_monitor_trampoline p fuel s = some (Outcome.aborted sm) ∧
      _gum_interceptor_backend_make_replace_trampoline p fuel s replacement_function
        = some (Outcome.aborted sr) ∧
      sm.writer.ops = monitor_enter_ops p ∧
      sr.writer.ops =
        replace_leave_ops p ++
          replace_enter_ops p sr.ctx.on_leave_trampoline replacement_function ∧
      sm.ctx.overwritten_prologue = s.ctx.overwritten_prologue ∧
      sm.ctx.overwritten_prologue_len = s.ctx.overwritten_prologue_len ∧
      sr.ctx.overwritten_prologue = s.ctx.overwritten_prologue ∧
      sr.ctx.overwritten_prologue_len = s.ctx.overwritten_prologue_len ∧
      (∀ a, a < sm.writer.base ∨ sm.writer.base + gum_arm64_writer_offset p sm.writer ≤ a →
        sm.mem a = s.mem a) ∧
      (∀ a, a < sr.writer.base ∨ sr.writer.base + gum_arm64_writer_offset p sr.writer ≤ a →
        sr.mem a = s.mem a) := by
  unfold _gum_interceptor_backend_make_monitor_trampoline
    _gum_interceptor_backend_make_replace_trampoline
  rcases hp : gum_interceptor_backend_prepare_trampoline p s with ⟨ok, s1⟩
  rw [hp] at hprep hbefore
  simp only at hprep hbefore
  subst hprep
  obtain ⟨hmem, hfa, hbuf, hlen, _, hsome⟩ := prepare_true_facts p s s1 hp
  cases hsl : s1.ctx.trampoline_slice with
  | none => simp [hsl] at hsome
  | some slice =>
    have hloop := read_loop_assert p s1.ctx.function_address s1.ctx.redirect_code_size k
      (by rw [hfa]; exact hzero) fuel 0 (by omega) (by omega)
      (fun j _ hjk => by rw [hfa]; exact hbefore j hjk)
    simp only [hsl, hloop]
    refine ⟨_, _, rfl, rfl, rfl, rfl, hbuf, hlen, hbuf, hlen, ?_, ?_⟩
    · intro a ha
      show writer_commit p _ s1.mem a = s.mem a
      rw [writer_commit_outside _ _ _ _ ha, hmem]
    · intro a ha
      show writer_commit p _ s1.mem a = s.mem a
      rw [writer_commit_outside _ _ _ _ ha, hmem]

/-- C7 on the sample platform with an input whose second instruction does not
decode, for the Absolute class. -/
theorem zero_read_aborts_build_witness :
    ∃ sm sr,
      _gum_interceptor_backend_make_monitor_trampoline
          (sample_platform true 16 none (reads_until 1)) 16 (sample_state 0x400120)
        = some (Outcome.aborted sm) ∧
      _gum_interceptor_backend_make_replace_trampoline
          (sample_platform true 16 none (reads_until 1)) 16 (sample_state 0x400120) 0x900000
        = some (Outcome.aborted sr) ∧
      sm.writer.ops = monitor_enter_ops (sample_platform true 16 none (reads_until 1)) ∧
      sr.writer.ops =
        replace_leave_ops (sample_platform true 16 none (reads_until 1)) ++
          replace_enter_ops (sample_platform true 16 none (reads_until 1))
            sr.ctx.on_leave_trampoline 0x900000 ∧
      sm.ctx.overwritten_prologue = (sample_state 0x400120).ctx.overwritten_prologue ∧
      sm.ctx.overwritten_prologue_len = (sample_state 0x400120).ctx.overwritten_prologue_len ∧
      sr.ctx.overwritten_prologue = (sample_state 0x400120).ctx.overwritten_prologue ∧
      sr.ctx.overwritten_prologue_len = (sample_state 0x400120).ctx.overwritten_prologue_len ∧
      (∀ a, a < sm.writer.base ∨
          sm.writer.base +
            gum_arm64_writer_offset (sample_platform true 16 none (reads_until 1)) sm.writer ≤ a →
        sm.mem a = (sample_state 0x400120).mem a) ∧
      (∀ a, a < sr.writer.base ∨
          sr.writer.base +
            gum_arm64_writer_offset (sample_platform true 16 none (reads_until 1)) sr.writer ≤ a →
        sr.mem a = (sample_state 0x400120).mem a) :=
  zero_read_aborts_build (sample_platform true 16 none (reads_until 1)) 16 (sample_state 0x400120)
    0x900000 1 rfl rfl
    (by
      intro j hj
      have hj0 : j = 0 := by omega
      subst hj0
      decide)
    (by decide)

/-! ## The skip path of a Replace hook (C8) -/

/-- C8: in the code put by a `make_replace_trampoline` that returned TRUE, the
compare-and-branch on W0 is followed, when W0 is zero, by the ops after the
skip label, and these are, up to the end of the trampoline, exactly: restore
the CPU context, the relocated prologue, load of
`function_address + overwritten_prologue_len` into X16, branch to X16 (then
the flush). There is no store into the saved LR slot and no load of the
replacement function on that path. When W0 is non-zero (`value + 1`), the path
is: load of `on_leave_trampoline` into X0, store of X0 to the saved LR slot
`[SP, 8 + offset of lr]`, restore the CPU context, load of the replacement
function into X16, branch to X16. -/
theorem replace_skip_path (p : Platform) (fuel : Nat) (s0 s2 : State)
    (replacement_function value : Nat)
    (h : _gum_interceptor_backend_make_replace_trampoline p fuel s0 replacement_function
      = some (Outcome.returned true s2)) :
    path_after_cbz 0 s2.writer.ops =
        [Arm64Op.pop_cpu_context,
         Arm64Op.relocated s2.ctx.function_address s2.relocator.reads,
         Arm64Op.ldr_reg_address Arm64Reg.X16
           ((s2.ctx.function_address + s2.ctx.overwritten_prologue_len) % 2 ^ 64),
         Arm64Op.br_reg Arm64Reg.X16] ∧
      ops_after_label skip_label s2.writer.ops =
        [Arm64Op.pop_cpu_context,
         Arm64Op.relocated s2.ctx.function_address s2.relocator.reads,
         Arm64Op.ldr_reg_address Arm64Reg.X16
           ((s2.ctx.function_address + s2.ctx.overwritten_prologue_len) % 2 ^ 64),
         Arm64Op.br_reg Arm64Reg.X16,
         Arm64Op.flush] ∧
      path_after_cbz (value + 1) s2.writer.ops =
        [Arm64Op.ldr_reg_address Arm64Reg.X0 s2.ctx.on_leave_trampoline,
         Arm64Op.str_reg_reg_offset Arm64Reg.X0 Arm64Reg.SP (8 + p.lr_offset),
         Arm64Op.pop_cpu_context,
         Arm64Op.ldr_reg_address Arm64Reg.X16 replacement_function,
         Arm64Op.br_reg Arm64Reg.X16] := by
  obtain ⟨slice, _, hfa, _, _, hops, _, _, _, _⟩ :=
    replace_built p fuel s0 s2 replacement_function h
  rw [hops, hfa]
  refine ⟨?_, ?_, ?_⟩
  · simp [replace_leave_ops, replace_enter_ops, resume_ops, path_after_cbz, ops_after_label,
      run_to_branch]
  · simp [replace_leave_ops, replace_enter_ops, resume_ops, ops_after_label]
  · simp [replace_leave_ops, replace_enter_ops, resume_ops, path_after_cbz, run_to_branch]

/-- C8 on the sample Replace hook, with W0 = 0 and W0 = 1. -/
theorem replace_skip_path_witness :
    path_after_cbz 0 sample_replace_hook.writer.ops =
        [Arm64Op.pop_cpu_context,
         Arm64Op.relocated sample_replace_hook.ctx.function_address
           sample_replace_hook.relocator.reads,
         Arm64Op.ldr_reg_address Arm64Reg.X16
           ((sample_replace_hook.ctx.function_address +
             sample_replace_hook.ctx.overwritten_prologue_len) % 2 ^ 64),
         Arm64Op.br_reg Arm64Reg.X16] ∧
      ops_after_label skip_label sample_replace_hook.writer.ops =
        [Arm64Op.pop_cpu_context,
         Arm64Op.relocated sample_replace_hook.ctx.function_address
           sample_replace_hook.relocator.reads,
         Arm64Op.ldr_reg_address Arm64Reg.X16
           ((sample_replace_hook.ctx.function_address +
             sample_replace_hook.ctx.overwritten_prologue_len) % 2 ^ 64),
         Arm64Op.br_reg Arm64Reg.X16,
         Arm64Op.flush] ∧
      path_after_cbz (0 + 1) sample_replace_hook.writer.ops =
        [Arm64Op.ldr_reg_address Arm64Reg.X0 sample_replace_hook.ctx.on_leave_trampoline,
         Arm64Op.str_reg_reg_offset Arm64Reg.X0 Arm64Reg.SP
           (8 + (sample_platform false 8 (some { data := 0x410000, size := 4096 })
             reads_all).lr_offset),
         Arm64Op.pop_cpu_context,
         Arm64Op.ldr_reg_address Arm64Reg.X16 0x900000,
         Arm64Op.br_reg Arm64Reg.X16] :=
  replace_skip_path (sample_platform false 8 (some { data := 0x410000, size := 4096 }) reads_all)
    16 (sample_state 0x400120) sample_replace_hook 0x900000 0 rfl

/-! ## Reach of the redirect (C9) and alignment of on_enter (C10) -/

/-- C9, evaluated on the code: the placement constraints that preparation
passes to the allocator admit trampolines that the redirect instruction cannot
reach. Near class: the build for the function at `0x400120` requests a slice
within `GUM_ARM64_B_MAX_DISTANCE = 0x0fffffff` of it, the slice at `0x8400120`
satisfies that constraint, the build returns TRUE with `on_enter_trampoline =
0x8400120`, activation puts `b_imm 0x8400120` at `0x400120`, and the offset
`0x8000000 = 2^27` is outside the range `[-2^27, 2^27 - 4]` of `B`.
PageRelative class: the slice at `0x100400000` is within
`GUM_ARM64_ADRP_MAX_DISTANCE = 0x1fffff000` of the page `0x400000`, activation
puts `adrp X16, 0x100400000`, and the page delta `2^32` is outside the range
`[-2^32, 2^32 - 4096]` of `ADRP`. -/
theorem redirect_reach_exceeds_encoding :
    (_gum_interceptor_backend_make_monitor_trampoline
        (sample_platform false 4 (some { data := 0x8400120, size := 4096 }) reads_all) 16
        (sample_state 0x400120) = some (Outcome.returned true sample_far_near_hook) ∧
      sample_far_near_hook.allocator_calls =
        [AllocatorCall.try_alloc_slice_near
          { near_address := 0x400120, max_distance := 0x0fffffff } 0] ∧
      address_spec_is_satisfied_by
        { near_address := 0x400120, max_distance := GUM_ARM64_B_MAX_DISTANCE } 0x8400120 = true ∧
      sample_far_near_hook.ctx.on_enter_trampoline = 0x8400120 ∧
      (activation_writer sample_far_near_hook).map (fun aw => (aw.base, aw.ops)) =
        some (0x400120, [Arm64Op.b_imm 0x8400120, Arm64Op.flush]) ∧
      b_imm_encodable 0x400120 0x8400120 = false) ∧
    (_gum_interceptor_backend_make_monitor_trampoline
        (sample_platform false 8 (some { data := 0x100400000, size := 4096 }) reads_all) 16
        (sample_state 0x400120) = some (Outcome.returned true sample_far_page_hook) ∧
      sample_far_page_hook.allocator_calls =
        [AllocatorCall.try_alloc_slice_near
          { near_address := 0x400000, max_distance := 0x1fffff000 } 4096] ∧
      address_spec_is_satisfied_by
        { near_address := 0x400000, max_distance := GUM_ARM64_ADRP_MAX_DISTANCE } 0x100400000
          = true ∧
      sample_far_page_hook.ctx.on_enter_trampoline = 0x100400000 ∧
      (activation_writer sample_far_page_hook).map (fun aw => (aw.base, aw.ops)) =
        some (0x400120,
          [Arm64Op.adrp_reg_address Arm64Reg.X16 0x100400000, Arm64Op.br_reg Arm64Reg.X16,
           Arm64Op.flush]) ∧
      adrp_encodable 0x400120 0x100400000 = false) := by
  refine ⟨⟨rfl, ?_, ?_, ?_, ?_, ?_⟩, ⟨rfl, ?_, ?_, ?_, ?_, ?_⟩⟩ <;> decide

/-- C10, evaluated on the code: the Replace hook built with the PageRelative
class in a slice whose data is 4096-byte aligned has an `on_enter_trampoline`
that is not 4096-byte aligned. `make_replace_trampoline` puts the on_leave code
first, so `on_leave_trampoline` is the slice data `0x410000` and
`on_enter_trampoline` is `0x410018`; activation puts `adrp X16, 0x410018;
br X16`, and the page base of `0x410018` is `on_leave_trampoline`. The
Monitor hook built on the same platform has `on_enter_trampoline` equal to the
slice data. -/
theorem replace_on_enter_not_page_aligned :
    _gum_interceptor_backend_make_replace_trampoline
        (sample_platform false 8 (some { data := 0x410000, size := 4096 }) reads_all) 16
        (sample_state 0x400120) 0x900000 = some (Outcome.returned true sample_replace_hook) ∧
      sample_replace_hook.ctx.redirect_code_size = 8 ∧
      sample_replace_hook.ctx.trampoline_slice = some { data := 0x410000, size := 4096 } ∧
      0x410000 % 4096 = 0 ∧
      sample_replace_hook.ctx.on_enter_trampoline = 0x410018 ∧
      sample_replace_hook.ctx.on_enter_trampoline % 4096 ≠ 0 ∧
      (activation_writer sample_replace_hook).map (fun aw => (aw.base, aw.ops)) =
        some (0x400120,
          [Arm64Op.adrp_reg_address Arm64Reg.X16 0x410018, Arm64Op.br_reg Arm64Reg.X16,
           Arm64Op.flush]) ∧
      sample_replace_hook.ctx.on_enter_trampoline / 4096 * 4096 =
        sample_replace_hook.ctx.on_leave_trampoline ∧
      (Outcome.state_or (sample_state 0)
        (_gum_interceptor_backend_make_monitor_trampoline
          (sample_platform false 8 (some { data := 0x410000, size := 4096 }) reads_all) 16
          (sample_state 0x400120))).ctx.on_enter_trampoline = 0x410000 := by
  refine ⟨rfl, ?_, ?_, ?_, ?_, ?_, ?_, ?_, ?_⟩ <;> decide

end GumArm64
